import Mathlib

/-!
Shallow embedding of the gloria-mcp adapter (Python): the pure response
shapers from `models.py`, the HTTP request construction and session
lifecycle from `client.py`, and the tool-level behaviour from `server.py`.

Python dicts are embedded as association lists `List (String × JVal)` in
insertion order; `item[k]` / `item.get(k)` / `k in item` become
`dict_lookup`. Python `None` is `JVal.null`. Raised exceptions become
`Option`/`Except` results.
-/

namespace GloriaMCP

/-- JSON-like values carried in API responses. Python `None` is `null`;
numbers are modelled as integers (the claims treat values opaquely). -/
inductive JVal where
  | null : JVal
  | bool (b : Bool) : JVal
  | num (n : Int) : JVal
  | str (s : String) : JVal
  | arr (elems : List JVal) : JVal
  | obj (fields : List (String × JVal)) : JVal
deriving Repr

/-- A Python dict with string keys, in insertion order. -/
abbrev Dict := List (String × JVal)

/-- First-match association lookup: embeds Python `d[k]` / `d.get(k)` /
`k in d` (a Python dict has no duplicate keys, so first match is the match). -/
def dict_lookup : Dict → String → Option JVal
  | [], _ => none
  | (k, v) :: rest, key => if k = key then some v else dict_lookup rest key

/-- models.py: `FREE_NEWS_FIELDS` — the fixed free-tier allow-list, in source order. -/
def FREE_NEWS_FIELDS : List String :=
  ["id", "signal", "sentiment", "sentiment_value", "timestamp",
   "feed_categories", "sources", "author", "tokens", "tweet_url"]

/-- models.py: `truncate_news(item)` = `{k: item[k] for k in FREE_NEWS_FIELDS if k in item}`.
The comprehension iterates the allow-list, keeping present keys with their values. -/
def truncate_news (item : Dict) : Dict :=
  FREE_NEWS_FIELDS.filterMap fun k => (dict_lookup item k).map fun v => (k, v)

/-- models.py: `format_recap(item)` — a dict literal of four `item.get(...)` reads
(`get` yields `None` when the key is absent). -/
def format_recap (item : Dict) : Dict :=
  [("feed_category", (dict_lookup item "feed_category").getD JVal.null),
   ("timeframe", (dict_lookup item "timeframe").getD JVal.null),
   ("recap", (dict_lookup item "recap").getD JVal.null),
   ("created_at", (dict_lookup item "created_at").getD JVal.null)]

/-- models.py: `X402_BASE`. -/
def X402_BASE : String := "https://api.itsgloria.ai"

/-- models.py: `enriched_news_payment_info()` — a dict literal built from string
constants only (Python implicit string-literal concatenation spelled out). -/
def enriched_news_payment_info : Dict :=
  [("payment_required", JVal.bool true),
   ("protocol", JVal.str "x402"),
   ("description", JVal.str
      "Get enriched news with full AI-generated context, entity analysis, and token mentions. Includes long_context and short_context fields omitted from the free tier."),
   ("endpoint", JVal.str (X402_BASE ++ "/news")),
   ("method", JVal.str "GET"),
   ("required_params", JVal.obj
      [("feed_categories", JVal.str "Category code (e.g. \x27bitcoin\x27, \x27defi\x27, \x27ai\x27)")]),
   ("optional_params", JVal.obj
      [("from_date", JVal.str "YYYY-MM-DD"),
       ("to_date", JVal.str "YYYY-MM-DD"),
       ("limit", JVal.str "1-10, default 10"),
       ("page", JVal.str "Page number, default 1")]),
   ("price", JVal.str "USDC on Base — exact amount returned in HTTP 402 response"),
   ("how_to_pay", JVal.str
      "Send a GET request to the endpoint. You\x27ll receive an HTTP 402 response with payment details. Complete the USDC payment on Base network, then retry with the payment proof header.")]

/-- models.py: `ticker_summary_payment_info()` — likewise a dict of constants. -/
def ticker_summary_payment_info : Dict :=
  [("payment_required", JVal.bool true),
   ("protocol", JVal.str "x402"),
   ("description", JVal.str
      "Get a comprehensive 24-hour AI-generated summary for any crypto ticker or topic. Combines Gloria\x27s curated news with web search for decision-grade bullet points."),
   ("endpoint", JVal.str (X402_BASE ++ "/news-ticker-summary")),
   ("method", JVal.str "GET"),
   ("required_params", JVal.obj
      [("ticker", JVal.str "Ticker symbol or topic name (e.g. \x27SOL\x27, \x27LayerZero\x27, \x27ETH\x27)")]),
   ("price", JVal.str "USDC on Base — exact amount returned in HTTP 402 response"),
   ("how_to_pay", JVal.str
      "Send a GET request to the endpoint. You\x27ll receive an HTTP 402 response with payment details. Complete the USDC payment on Base network, then retry with the payment proof header.")]

/-- Query-parameter values sent by the client: ints (`limit`, `page`) and strings. -/
inductive QVal where
  | num (n : Int) : QVal
  | str (s : String) : QVal
deriving DecidableEq, Repr

/-- Query parameters, a Python dict in insertion order. -/
abbrev QParams := List (String × QVal)

/-- First-match lookup on query parameters. -/
def qdict_lookup : QParams → String → Option QVal
  | [], _ => none
  | (k, v) :: rest, key => if k = key then some v else qdict_lookup rest key

/-- Python dict assignment `d[key] = v`: overwrite in place when the key
exists, otherwise append at the end. -/
def qdict_set (d : QParams) (key : String) (v : QVal) : QParams :=
  if d.any fun kv => kv.1 == key then
    d.map fun kv => if kv.1 == key then (key, v) else kv
  else d ++ [(key, v)]

/-- An outbound HTTP GET as the client issues it: path plus final query dict. -/
structure HttpRequest where
  path : String
  params : QParams
deriving DecidableEq, Repr

namespace GloriaClient

/-- client.py: `GloriaClient._get` — `params = params or {}` then
`params["token"] = self._token`, producing the request actually sent. -/
def _get (token : String) (path : String) (params : Option QParams) : HttpRequest :=
  let params := params.getD []
  ⟨path, qdict_set params "token" (QVal.str token)⟩

/-- client.py: the request built by `GloriaClient.get_news` — params
`{"limit": limit, "page": 1}`, plus `feed_categories` under Python
truthiness of `category` and `keyword` under truthiness of `keyword`. -/
def get_news_request (token : String) (category keyword : Option String) (limit : Int) :
    HttpRequest :=
  let params : QParams := [("limit", QVal.num limit), ("page", QVal.num 1)]
  let params := match category with
    | some c => if c = "" then params else qdict_set params "feed_categories" (QVal.str c)
    | none => params
  let params := match keyword with
    | some kw => if kw = "" then params else qdict_set params "keyword" (QVal.str kw)
    | none => params
  _get token "/news" (some params)

/-- client.py: the request built by `GloriaClient.get_news_by_id`. -/
def get_news_by_id_request (token : String) (news_id : String) : HttpRequest :=
  _get token ("/news/" ++ news_id) none

/-- client.py: the request built by `GloriaClient.get_recap`. -/
def get_recap_request (token : String) (category timeframe : String) : HttpRequest :=
  _get token "/recaps"
    (some [("feed_category", QVal.str category), ("timeframe", QVal.str timeframe)])

/-- client.py: the request built by `GloriaClient.get_categories`. -/
def get_categories_request (token : String) : HttpRequest :=
  _get token "/available-feed-categories" none

/-- The underlying httpx session handle: its base URL, timeout (30.0 seconds,
an exact value, represented integrally) and closed flag. -/
structure Session where
  base_url : String
  timeout : Nat
  is_closed : Bool
deriving DecidableEq, Repr

/-- client.py: `GloriaClient._client` — when the stored session is absent or
closed, allocate a fresh one at the owner's base URL with the fixed timeout;
returns the session to use and the new stored state. -/
def _client (base_url : String) (http : Option Session) : Session × Option Session :=
  match http with
  | some s =>
    if s.is_closed then
      let fresh : Session := ⟨base_url, 30, false⟩
      (fresh, some fresh)
    else (s, some s)
  | none =>
    let fresh : Session := ⟨base_url, 30, false⟩
    (fresh, some fresh)

/-- client.py: `GloriaClient.close` — `aclose` the session only when one
exists and is not already closed; the handle itself is kept. -/
def close (http : Option Session) : Option Session :=
  match http with
  | some s => if s.is_closed then some s else some { s with is_closed := true }
  | none => none

end GloriaClient

/-- server.py: the constructed `GloriaClient(base_url, token)` —
`__init__` strips trailing slashes from the base URL and stores the token
with no session yet. -/
structure GloriaClientState where
  base_url : String
  token : String
  http : Option GloriaClient.Session
deriving DecidableEq, Repr

/-- client.py: `GloriaClient.__init__`. -/
def GloriaClient.init (base_url token : String) : GloriaClientState :=
  ⟨base_url.dropRightWhile (fun c => c == '/'), token, none⟩

/-- server.py: default for `AI_HUB_BASE_URL`. -/
def default_base_url : String := "https://ai-hub.cryptobriefing.com"

/-- server.py: `_get_client()` — with the process environment as a map and the
module-level singleton as explicit state: reuse an existing client, otherwise
read `GLORIA_API_TOKEN` (default "") and `AI_HUB_BASE_URL` (fixed default) and
fail, constructing nothing, when the token is falsy. -/
def _get_client (env : String → Option String) (cur : Option GloriaClientState) :
    Except String GloriaClientState × Option GloriaClientState :=
  match cur with
  | some c => (Except.ok c, some c)
  | none =>
    let token := (env "GLORIA_API_TOKEN").getD ""
    let base_url := (env "AI_HUB_BASE_URL").getD default_base_url
    if token = "" then
      (Except.error "GLORIA_API_TOKEN environment variable is required", none)
    else
      let c := GloriaClient.init base_url token
      (Except.ok c, some c)

/-- Repeated `_get_client` attempts from a given singleton state, collecting
each attempt's outcome while threading the state. -/
def run_attempts (env : String → Option String) :
    Nat → Option GloriaClientState → List (Except String GloriaClientState)
  | 0, _ => []
  | n + 1, st =>
    let (r, st') := _get_client env st
    r :: run_attempts env n st'

/-- server.py: `get_latest_news(category, limit)` — clamp the limit into
[1,10], fetch via the client's `get_news` (keyword `None`), then map
`truncate_news` over the items. The client is passed explicitly. -/
def get_latest_news (client : Option String → Option String → Int → List Dict)
    (category : Option String) (limit : Int) : List Dict :=
  let limit := max 1 (min 10 limit)
  (client category none limit).map truncate_news

/-- server.py: `search_news(query, limit)` — clamp the limit into [1,5],
fetch via `get_news` with the query as keyword (category `None`), then map
`truncate_news` over the items. -/
def search_news (client : Option String → Option String → Int → List Dict)
    (query : String) (limit : Int) : List Dict :=
  let limit := max 1 (min 5 limit)
  (client none (some query) limit).map truncate_news

/-- server.py: `get_news_recap(category, timeframe)` after the client call,
with the upstream result explicit (`none` embeds Python `None`). -/
def get_news_recap (upstream : Option Dict) (category timeframe : String) : Dict :=
  match upstream with
  | none =>
    [("error", JVal.str ("No recap found for category \x27" ++ category
        ++ "\x27 with timeframe \x27" ++ timeframe ++ "\x27."))]
  | some result => format_recap result

/-- server.py: `get_news_item(id)` after the client call, with the upstream
result explicit. -/
def get_news_item (upstream : Option Dict) (id : String) : Dict :=
  match upstream with
  | none => [("error", JVal.str ("News item \x27" ++ id ++ "\x27 not found."))]
  | some item => truncate_news item

/-- server.py: `get_enriched_news()` — returns the static payment info; the
threaded request log records every client call an invocation issues (none). -/
def get_enriched_news (log : List HttpRequest) : Dict × List HttpRequest :=
  (enriched_news_payment_info, log)

/-- server.py: `get_ticker_summary()` — likewise static, no client call. -/
def get_ticker_summary (log : List HttpRequest) : Dict × List HttpRequest :=
  (ticker_summary_payment_info, log)

/-- Python truthiness of a JSON value (`if recap:`). -/
def jTruthy : JVal → Bool
  | JVal.null => false
  | JVal.bool b => b
  | JVal.num n => !(n == 0)
  | JVal.str s => !(s == "")
  | JVal.arr elems => !elems.isEmpty
  | JVal.obj fields => !fields.isEmpty

mutual

/-- Python `repr` of a JSON value (string escaping inside reprs elided). -/
def pyRepr : JVal → String
  | JVal.null => "None"
  | JVal.bool true => "True"
  | JVal.bool false => "False"
  | JVal.num n => toString n
  | JVal.str s => "\x27" ++ s ++ "\x27"
  | JVal.arr elems => "[" ++ pyReprItems elems ++ "]"
  | JVal.obj fields => "\x7b" ++ pyReprFields fields ++ "\x7d"

/-- Comma-joined reprs of list elements. -/
def pyReprItems : List JVal → String
  | [] => ""
  | [x] => pyRepr x
  | x :: xs => pyRepr x ++ ", " ++ pyReprItems xs

/-- Comma-joined `'key': repr(value)` pairs of a dict. -/
def pyReprFields : List (String × JVal) → String
  | [] => ""
  | [(k, v)] => "\x27" ++ k ++ "\x27: " ++ pyRepr v
  | (k, v) :: fields => "\x27" ++ k ++ "\x27: " ++ pyRepr v ++ ", " ++ pyReprFields fields

end

/-- Python `str()` as used by f-string interpolation: strings unchanged,
everything else via `repr`. -/
def pyStr : JVal → String
  | JVal.str s => s
  | v => pyRepr v

/-- server.py: one iteration of the rendering loop in `categories_resource` —
`none` embeds the `KeyError` raised when `code` or `name` is missing. -/
def render_category (cat : Dict) : Option String :=
  match dict_lookup cat "code", dict_lookup cat "name" with
  | some c, some n =>
    let recap := (dict_lookup cat "recap_timeframe").getD JVal.null
    let recap_info :=
      if jTruthy recap then " (recaps every " ++ pyStr recap ++ ")" else " (no recaps)"
    some ("- " ++ pyStr c ++ ": " ++ pyStr n ++ recap_info)
  | _, _ => none

/-- server.py: the fallback string of the `except` branch. -/
def categories_fallback : String :=
  "Categories temporarily unavailable. Use the get_categories tool instead."

/-- server.py: the rendering loop of `categories_resource` — render each
record in order; a `KeyError` on any record aborts the whole rendering. -/
def render_categories : List Dict → Option (List String)
  | [] => some []
  | cat :: rest =>
    match render_category cat with
    | none => none
    | some line => (render_categories rest).map fun lines => line :: lines

/-- server.py: `categories_resource()` with the fetch outcome explicit — a
failed fetch or a `KeyError` while rendering lands in the `except` branch. -/
def categories_resource (fetch : Except Unit (List Dict)) : String :=
  match fetch with
  | Except.error _ => categories_fallback
  | Except.ok cats =>
    match render_categories cats with
    | none => categories_fallback
    | some rendered =>
      String.intercalate "\n" ("Available Gloria AI news categories:\n" :: rendered)

/-- An input whose free-tier fields are listed in the opposite of allow-list order. -/
def reordered_item : Dict := [("signal", JVal.str "headline"), ("id", JVal.num 1)]

/-- Generic shape of `truncate_news`: looking up `k` in the projection of
`item` through allow-list `allow` gives `item`'s value iff `k ∈ allow`. -/
theorem dict_lookup_filterMap_allow (allow : List String) (item : Dict) (k : String) :
    dict_lookup (allow.filterMap fun f => (dict_lookup item f).map fun v => (f, v)) k
      = if k ∈ allow then dict_lookup item k else none := by
  induction allow with
  | nil => simp [dict_lookup]
  | cons f rest ih =>
    by_cases hk : k = f
    · subst hk
      cases hv : dict_lookup item k with
      | none =>
        simp only [List.filterMap_cons, hv, Option.map_none']
        rw [ih]
        simp [hv]
      | some v =>
        simp only [List.filterMap_cons, hv, Option.map_some']
        simp [dict_lookup, hv]
    · cases hv : dict_lookup item f with
      | none =>
        simp only [List.filterMap_cons, hv, Option.map_none']
        rw [ih]
        simp [List.mem_cons, hk]
      | some v =>
        simp only [List.filterMap_cons, hv, Option.map_some']
        simp only [dict_lookup]
        rw [if_neg (fun h => hk h.symm), ih]
        simp [List.mem_cons, hk]

/-- Keys of the allow-list projection: the allow-list filtered to keys present
in the input (hence in allow-list order). -/
theorem keys_filterMap_allow (allow : List String) (item : Dict) :
    (allow.filterMap fun f => (dict_lookup item f).map fun v => (f, v)).map Prod.fst
      = allow.filter fun k => (dict_lookup item k).isSome := by
  induction allow with
  | nil => simp
  | cons f rest ih =>
    cases hv : dict_lookup item f with
    | none => simp [List.filterMap_cons, hv, List.filter_cons, ih]
    | some v => simp [List.filterMap_cons, hv, List.filter_cons, ih]

/-- Presence of a key in a dict is presence in its key list. -/
theorem dict_lookup_isSome_iff_mem_keys (d : Dict) (k : String) :
    (dict_lookup d k).isSome ↔ k ∈ d.map Prod.fst := by
  induction d with
  | nil => simp [dict_lookup]
  | cons p rest ih =>
    obtain ⟨k', v⟩ := p
    by_cases h : k' = k
    · subst h
      simp [dict_lookup]
    · simp [dict_lookup, h, ih, Ne.symm h]

/-- C1: for every news item, `truncate_news` returns a mapping whose key set is
exactly the intersection of the item's keys and the ten-field allow-list, each
surviving key bound to the identical value from the input; keys absent from the
input are omitted without defaulting and without error. -/
theorem C1_truncate_news_allowlist_projection (item : Dict) (k : String) :
    (k ∈ (truncate_news item).map Prod.fst ↔ k ∈ FREE_NEWS_FIELDS ∧ k ∈ item.map Prod.fst)
    ∧ dict_lookup (truncate_news item) k
        = if k ∈ FREE_NEWS_FIELDS then dict_lookup item k else none := by
  refine ⟨?_, ?_⟩
  · simp only [truncate_news, keys_filterMap_allow, List.mem_filter,
      dict_lookup_isSome_iff_mem_keys]
  · simp only [truncate_news, dict_lookup_filterMap_allow]

/-- C2 is refuted as stated: on an input listing `signal` before `id`,
`truncate_news` emits `id` before `signal` (allow-list order), so the surviving
fields do not keep the input's relative order. -/
theorem C2_truncate_news_reorders_counterexample :
    truncate_news reordered_item = [("id", JVal.num 1), ("signal", JVal.str "headline")]
    ∧ reordered_item.map Prod.fst = ["signal", "id"]
    ∧ (truncate_news reordered_item).map Prod.fst ≠ reordered_item.map Prod.fst := by
  refine ⟨rfl, rfl, ?_⟩
  decide

/-- C2 (amended): the free-tier view is a strict field projection — no field is
renamed, no value is computed or altered — but the surviving fields appear in
the fixed allow-list order of `FREE_NEWS_FIELDS`, not in the input's relative
order (the two coincide only when the input already lists its free fields in
allow-list order). -/
theorem C2_truncate_news_projection_amended (item : Dict) :
    (truncate_news item).map Prod.fst
      = FREE_NEWS_FIELDS.filter (fun k => (dict_lookup item k).isSome)
    ∧ ∀ k : String, dict_lookup (truncate_news item) k
        = if k ∈ FREE_NEWS_FIELDS then dict_lookup item k else none :=
  ⟨keys_filterMap_allow _ _, fun _ => dict_lookup_filterMap_allow _ _ _⟩

/-- C3: for every recap record, `format_recap` returns a mapping with exactly
the four keys `feed_category`, `timeframe`, `recap`, `created_at`; any of the
four missing from the input yields `null`, and the function never fails on
absent keys. -/
theorem C3_format_recap_four_keys (item : Dict) :
    (format_recap item).map Prod.fst = ["feed_category", "timeframe", "recap", "created_at"]
    ∧ ∀ k : String,
        dict_lookup (format_recap item) k
          = if k ∈ (["feed_category", "timeframe", "recap", "created_at"] : List String)
            then some ((dict_lookup item k).getD JVal.null) else none := by
  refine ⟨rfl, fun k => ?_⟩
  simp only [format_recap, dict_lookup, List.mem_cons, List.not_mem_nil, or_false]
  by_cases h1 : k = "feed_category"
  · subst h1; simp
  · by_cases h2 : k = "timeframe"
    · subst h2; simp
    · by_cases h3 : k = "recap"
      · subst h3; simp
      · by_cases h4 : k = "created_at"
        · subst h4; simp
        · simp [h1, h2, h3, h4, Ne.symm h1, Ne.symm h2, Ne.symm h3, Ne.symm h4]

/-- C4: `get_latest_news` clamps its limit into [1,10] and `search_news` into
[1,5] before the client call; limit 0 behaves as 1 and limit 999 as the upper
bound, and the clamped value — never the raw argument — is what reaches the
client's `get_news`. -/
theorem C4_limit_clamping
    (client : Option String → Option String → Int → List Dict)
    (category : Option String) (query : String) (limit : Int) :
    get_latest_news client category limit
      = (client category none (max 1 (min 10 limit))).map truncate_news
    ∧ 1 ≤ max 1 (min 10 limit) ∧ max 1 (min 10 limit) ≤ 10
    ∧ get_latest_news client category 0 = get_latest_news client category 1
    ∧ get_latest_news client category 999 = get_latest_news client category 10
    ∧ search_news client query limit
      = (client none (some query) (max 1 (min 5 limit))).map truncate_news
    ∧ 1 ≤ max 1 (min 5 limit) ∧ max 1 (min 5 limit) ≤ 5
    ∧ search_news client query 0 = search_news client query 1
    ∧ search_news client query 999 = search_news client query 5 :=
  ⟨rfl, le_max_left _ _, by omega, rfl, rfl,
   rfl, le_max_left _ _, by omega, rfl, rfl⟩

/-- C5: when the upstream result is null, `get_news_recap` returns exactly the
single-key error mapping with both parameters interpolated, and `get_news_item`
handles null identically in shape; otherwise they return `format_recap` resp.
`truncate_news` of the result. -/
theorem C5_not_found_sentinels (category timeframe id : String) (r item : Dict) :
    get_news_recap none category timeframe
      = [("error", JVal.str ("No recap found for category \x27" ++ category
          ++ "\x27 with timeframe \x27" ++ timeframe ++ "\x27."))]
    ∧ (get_news_recap none category timeframe).map Prod.fst = ["error"]
    ∧ get_news_recap (some r) category timeframe = format_recap r
    ∧ get_news_item none id
      = [("error", JVal.str ("News item \x27" ++ id ++ "\x27 not found."))]
    ∧ (get_news_item none id).map Prod.fst = ["error"]
    ∧ get_news_item (some item) id = truncate_news item :=
  ⟨rfl, rfl, rfl, rfl, rfl, rfl⟩

/-- C6: `get_enriched_news` and `get_ticker_summary` never invoke the client
(the threaded request log is returned untouched) and return the same fully
static payment-info mapping on every invocation. -/
theorem C6_paid_tools_static (log log' : List HttpRequest) :
    (get_enriched_news log).2 = log
    ∧ (get_enriched_news log).1 = (get_enriched_news log').1
    ∧ (get_enriched_news log).1 = enriched_news_payment_info
    ∧ (get_ticker_summary log).2 = log
    ∧ (get_ticker_summary log).1 = (get_ticker_summary log').1
    ∧ (get_ticker_summary log).1 = ticker_summary_payment_info :=
  ⟨rfl, rfl, rfl, rfl, rfl, rfl⟩

/-- C7: every client request carries a query parameter named exactly `token`
with the configured bearer token; `get_news` builds `{limit, page: 1}` plus
`feed_categories` when a category filter is given and `keyword` when a keyword
filter is given (Python truthiness), each passed through unmodified. -/
theorem C7_request_parameters (token news_id rc rt : String)
    (category keyword : Option String) (limit : Int) :
    qdict_lookup (GloriaClient.get_news_request token category keyword limit).params "token"
      = some (QVal.str token)
    ∧ qdict_lookup (GloriaClient.get_news_by_id_request token news_id).params "token"
      = some (QVal.str token)
    ∧ qdict_lookup (GloriaClient.get_recap_request token rc rt).params "token"
      = some (QVal.str token)
    ∧ qdict_lookup (GloriaClient.get_categories_request token).params "token"
      = some (QVal.str token)
    ∧ (GloriaClient.get_news_request token category keyword limit).path = "/news"
    ∧ qdict_lookup (GloriaClient.get_news_request token category keyword limit).params "limit"
      = some (QVal.num limit)
    ∧ qdict_lookup (GloriaClient.get_news_request token category keyword limit).params "page"
      = some (QVal.num 1)
    ∧ qdict_lookup (GloriaClient.get_news_request token category keyword limit).params
        "feed_categories"
      = category.bind (fun c => if c = "" then none else some (QVal.str c))
    ∧ qdict_lookup (GloriaClient.get_news_request token category keyword limit).params "keyword"
      = keyword.bind (fun kw => if kw = "" then none else some (QVal.str kw))
    ∧ (GloriaClient.get_news_request token category keyword limit).params.map Prod.fst
      = ["limit", "page"]
        ++ (match category with
            | some c => if c = "" then [] else ["feed_categories"]
            | none => [])
        ++ (match keyword with
            | some kw => if kw = "" then [] else ["keyword"]
            | none => [])
        ++ ["token"] := by
  obtain _ | c := category <;> obtain _ | kw := keyword
  · simp [GloriaClient.get_news_request, GloriaClient._get,
      GloriaClient.get_news_by_id_request, GloriaClient.get_recap_request,
      GloriaClient.get_categories_request, qdict_set, qdict_lookup]
  · by_cases hkw : kw = "" <;>
      simp [GloriaClient.get_news_request, GloriaClient._get,
        GloriaClient.get_news_by_id_request, GloriaClient.get_recap_request,
        GloriaClient.get_categories_request, qdict_set, qdict_lookup, hkw]
  · by_cases hc : c = "" <;>
      simp [GloriaClient.get_news_request, GloriaClient._get,
        GloriaClient.get_news_by_id_request, GloriaClient.get_recap_request,
        GloriaClient.get_categories_request, qdict_set, qdict_lookup, hc]
  · by_cases hc : c = "" <;> by_cases hkw : kw = "" <;>
      simp [GloriaClient.get_news_request, GloriaClient._get,
        GloriaClient.get_news_by_id_request, GloriaClient.get_recap_request,
        GloriaClient.get_categories_request, qdict_set, qdict_lookup, hc, hkw]

/-- C8: with `GLORIA_API_TOKEN` absent from the environment, `_get_client`
fails with the configuration error before any request, constructs no client
(the singleton state stays empty), and every repeated attempt fails the same
way — never retried into success, never converted into a payload. -/
theorem C8_missing_token_fatal (env : String → Option String)
    (h : env "GLORIA_API_TOKEN" = none) :
    (_get_client env none).1
      = Except.error "GLORIA_API_TOKEN environment variable is required"
    ∧ (_get_client env none).2 = none
    ∧ ∀ n : Nat, run_attempts env n none
        = List.replicate n
            (Except.error "GLORIA_API_TOKEN environment variable is required") := by
  have hstep : _get_client env none
      = (Except.error "GLORIA_API_TOKEN environment variable is required", none) := by
    simp [_get_client, h]
  refine ⟨by rw [hstep], by rw [hstep], fun n => ?_⟩
  induction n with
  | zero => rfl
  | succ n ih => simp [run_attempts, hstep, ih, List.replicate_succ]

/-- C8 witness: an environment defining no variable at all is refused on three
straight construction attempts. -/
theorem C8_missing_token_fatal_witness :
    run_attempts (fun _ => none) 3 none
      = List.replicate 3
          (Except.error "GLORIA_API_TOKEN environment variable is required") :=
  (C8_missing_token_fatal (fun _ => none) rfl).2.2 3

/-- C9: session lifecycle — `close` is safe with no session and idempotent;
every `_client` call hands back an open session and stores exactly that
session; and a request after any `close` gets a fresh open session at the
fixed base URL with the fixed timeout. -/
theorem C9_session_lifecycle (b : String) (st : Option GloriaClient.Session) :
    GloriaClient.close none = none
    ∧ GloriaClient.close (GloriaClient.close st) = GloriaClient.close st
    ∧ (GloriaClient._client b st).1.is_closed = false
    ∧ (GloriaClient._client b st).2 = some (GloriaClient._client b st).1
    ∧ GloriaClient._client b none = (⟨b, 30, false⟩, some ⟨b, 30, false⟩)
    ∧ GloriaClient._client b (GloriaClient.close st)
      = (⟨b, 30, false⟩, some ⟨b, 30, false⟩) := by
  obtain _ | ⟨sb, sto, sc⟩ := st
  · exact ⟨rfl, rfl, rfl, rfl, rfl, rfl⟩
  · cases sc <;> simp [GloriaClient.close, GloriaClient._client]

/-- The rendering loop fails as a whole as soon as any record fails to render. -/
theorem render_categories_eq_none_of_mem_none :
    ∀ (l : List Dict) (x : Dict), x ∈ l → render_category x = none →
      render_categories l = none := by
  intro l
  induction l with
  | nil => intro x hx; cases hx
  | cons a t ih =>
    intro x hx hfx
    rcases List.mem_cons.mp hx with rfl | hmem
    · simp [render_categories, hfx]
    · cases hfa : render_category a <;>
        simp [render_categories, hfa, ih x hmem hfx]

/-- A category record lacking `code` or `name` makes the renderer fail
(the embedded `KeyError`). -/
theorem render_category_missing_key_none (cat : Dict)
    (h : dict_lookup cat "code" = none ∨ dict_lookup cat "name" = none) :
    render_category cat = none := by
  rcases h with h | h
  · cases hn : dict_lookup cat "name" <;> simp [render_category, h, hn]
  · cases hc : dict_lookup cat "code" <;> simp [render_category, h, hc]

/-- C10: the categories resource degrades to the fallback string not only when
the fetch fails but also when rendering hits a record lacking `code` or `name`;
a record whose `recap_timeframe` is absent or null is tolerated and rendered
with the " (no recaps)" suffix. -/
theorem C10_categories_resource_fallback :
    categories_resource (Except.error ()) = categories_fallback
    ∧ (∀ cats : List Dict, ∀ cat ∈ cats,
        (dict_lookup cat "code" = none ∨ dict_lookup cat "name" = none) →
        categories_resource (Except.ok cats) = categories_fallback)
    ∧ (∀ (cat : Dict) (c n : JVal),
        dict_lookup cat "code" = some c →
        dict_lookup cat "name" = some n →
        (dict_lookup cat "recap_timeframe" = none
          ∨ dict_lookup cat "recap_timeframe" = some JVal.null) →
        render_category cat
          = some ("- " ++ pyStr c ++ ": " ++ pyStr n ++ " (no recaps)")) := by
  refine ⟨rfl, fun cats cat hmem hbad => ?_, fun cat c n hc hn hr => ?_⟩
  · have hnone : render_categories cats = none :=
      render_categories_eq_none_of_mem_none cats cat hmem
        (render_category_missing_key_none cat hbad)
    simp [categories_resource, hnone]
  · have hrecap : (dict_lookup cat "recap_timeframe").getD JVal.null = JVal.null := by
      rcases hr with h | h <;> simp [h]
    simp [render_category, hc, hn, hrecap, jTruthy]

/-- C10 witness: a fetched list containing a record with no `code` key forces
the fallback, and a well-formed record without `recap_timeframe` renders with
the no-recaps suffix. -/
theorem C10_categories_resource_fallback_witness :
    categories_resource (Except.ok
        [[("code", JVal.str "bitcoin"), ("name", JVal.str "Bitcoin")],
         [("name", JVal.str "Broken")]])
      = categories_fallback
    ∧ render_category [("code", JVal.str "bitcoin"), ("name", JVal.str "Bitcoin")]
      = some "- bitcoin: Bitcoin (no recaps)" := by
  constructor
  · exact C10_categories_resource_fallback.2.1
      [[("code", JVal.str "bitcoin"), ("name", JVal.str "Bitcoin")],
       [("name", JVal.str "Broken")]]
      [("name", JVal.str "Broken")]
      (by simp)
      (Or.inl (by simp [dict_lookup]))
  · have h := C10_categories_resource_fallback.2.2
      [("code", JVal.str "bitcoin"), ("name", JVal.str "Bitcoin")]
      (JVal.str "bitcoin") (JVal.str "Bitcoin")
      (by simp [dict_lookup]) (by simp [dict_lookup]) (Or.inl (by simp [dict_lookup]))
    simpa [pyStr] using h

end GloriaMCP
